import Mathlib

/-!
Rook: monitor disruption-budget validation, exit-status classification, event routing.

A shallow embedding of

* `pkg/operator/ceph/cluster/pdb/pdb.go` and its legacy variant `mon.go`,
* `pkg/util/exec/error.go`,
* `pkg/operator/ceph/disruption/clusterdisruption/add.go`,

followed by the theorems settling the claims of the specification.

Conventions of the embedding.

* Go `int` is a 64-bit two's-complement integer.  Values are carried as `Int`; every
  arithmetic result is passed through `wrapInt64`, and theorems state the range of the
  inputs (`IsInt64`) where the result depends on it.
* A Go pointer that the code dereferences is an `Option`; dereferencing `none` is the
  run-time panic `Fault.nilPointerDereference`, reported through `Except`.
* Every call to the package logger is recorded, in order, as a `LogEvent`; one
  constructor stands for one logging statement of the source.
* Responses of the Kubernetes API clients and the dispatch rules of the
  controller-runtime library are not part of the repository; they appear as fields of
  `clusterd.Context` and as the definitions of the namespaces `predicate` and `handler`.
-/

/-! ## Machine integers -/

/-- Reduction of an integer to the range of Go's 64-bit `int` (two's complement). -/
def wrapInt64 (x : Int) : Int := (x + 2 ^ 63) % 2 ^ 64 - 2 ^ 63

/-- The values a Go `int` can hold. -/
def IsInt64 (x : Int) : Prop := -(2 ^ 63) ≤ x ∧ x < 2 ^ 63

instance (x : Int) : Decidable (IsInt64 x) := by
  unfold IsInt64; exact inferInstance

/-- Go's `a / b` on `int`: the quotient truncated toward zero, reduced to 64 bits. -/
def goDiv (a b : Int) : Int := wrapInt64 (Int.tdiv a b)

/-- Go's `a + b` on `int`. -/
def goAdd (a b : Int) : Int := wrapInt64 (a + b)

/-- The run-time panics the embedded code can raise. -/
inductive Fault where
  | nilPointerDereference
  deriving DecidableEq, Repr

/-! ## API objects (`metav1`, `cephv1`, `policy/v1beta1`, `intstr`) -/

namespace metav1

/-- The part of `metav1.ObjectMeta` the code reads.  `Labels` is the `map[string]string`
as an association list. -/
structure ObjectMeta where
  Name : String := ""
  Namespace : String := ""
  Labels : List (String × String) := []
  deriving DecidableEq, Repr

end metav1

namespace cephv1

/-- The declaration `cephv1.MonSpec`, of which the code reads `Count`. -/
structure MonSpec where
  Count : Int := 0
  deriving DecidableEq, Repr

/-- The declaration `cephv1.ClusterSpec`: the monitor spec and, as the parameter `ρ`, the
remaining fields, whose declarations are outside the sources at hand. -/
structure ClusterSpec (ρ : Type) where
  Mon : MonSpec
  Rest : ρ
  deriving DecidableEq, Repr

/-- The declaration `cephv1.CephCluster`; `τ` is the type of its `Status`. -/
structure CephCluster (ρ τ : Type) where
  ObjectMeta : metav1.ObjectMeta
  Spec : ClusterSpec ρ
  Status : τ
  deriving DecidableEq, Repr

end cephv1

namespace intstr

/-- The kinds of `intstr.IntOrString`. -/
inductive Kind where
  | Int
  | String
  deriving DecidableEq, Repr

/-- The declaration `intstr.IntOrString` (`Type_` is its field `Type`); `IntVal` is an
`int32`. -/
structure IntOrString where
  Type_ : Kind := Kind.Int
  IntVal : Int := 0
  StrVal : String := ""
  deriving DecidableEq, Repr

/-- The constructor `intstr.FromInt`. -/
def FromInt (val : Int) : IntOrString := { Type_ := Kind.Int, IntVal := val }

end intstr

namespace v1beta1

/-- The declaration `PodDisruptionBudgetSpec`, of which the code reads the pointer
`MinAvailable`. -/
structure PodDisruptionBudgetSpec where
  MinAvailable : Option intstr.IntOrString := none
  deriving DecidableEq, Repr

/-- The declaration `v1beta1.PodDisruptionBudget`. -/
structure PodDisruptionBudget where
  ObjectMeta : metav1.ObjectMeta
  Spec : PodDisruptionBudgetSpec := {}
  deriving DecidableEq, Repr

end v1beta1

/-! ## Package `pdb` (`pdb.go`, `mon.go`) -/

namespace apierrors

/-- An error returned by an API client, as far as `errors.IsNotFound` tells errors apart. -/
inductive APIError where
  | notFound (msg : String)
  | other (msg : String)
  deriving DecidableEq, Repr

/-- The test `errors.IsNotFound`. -/
def IsNotFound : APIError → Bool
  | .notFound _ => true
  | .other _ => false

end apierrors

namespace clusterd

/-- The two API clients of `clusterd.Context` used by the package, given by their responses:
`getCephCluster ns name` is what `RookClientset.CephV1().CephClusters(ns).Get(name, opts)`
returns, `listPodDisruptionBudgets ns` is what
`Clientset.PolicyV1beta1().PodDisruptionBudgets(ns).List(opts)` returns. -/
structure Context (ρ τ : Type) where
  getCephCluster : String → String →
    Option (cephv1.CephCluster ρ τ) × Option apierrors.APIError
  listPodDisruptionBudgets : String →
    Option (List v1beta1.PodDisruptionBudget) × Option apierrors.APIError

end clusterd

namespace pdb

/-- The constant `namespace`. -/
def namespace_ : String := "rook-ceph"

/-- The constant `monPDB`. -/
def monPDB : String := "mon-pdb"

/-- The logging statements of `pdb.go` and `mon.go`. -/
inductive LogEvent where
  /-- Debug: "New PodDistributionBudget for Mon Found". -/
  | debugMonFound
  /-- Warning: "Mon Count - %v not consistent with minAvaliable mon in PDB - %v ". -/
  | warnNotConsistent (monCount minAvaliable : Int)
  /-- Warning: "Failed to retrive cluster object - %v". -/
  | warnRetrieveCluster (err : apierrors.APIError)
  /-- Warning: "Error checking for existing Pod Disruption Budgets  - %+v". -/
  | warnListPDB (err : apierrors.APIError)
  /-- Debug: "New PodDisruptionBudget object added - %v" / "PodDisruptionBudget resource
  updated" (in `mon.go`: the corresponding first statement of `onAdd` / `onUpdate`). -/
  | eventReceived
  /-- Warning: "Expected PodDisruptionBudget but handler received ...". -/
  | warnUnexpectedType
  /-- Info: "Mon PDB found - %+v". -/
  | infoMonPDBFound
  /-- Info: "PodDisruptionBudget not created for mons". -/
  | infoNotCreated
  deriving DecidableEq, Repr

/-- The type `PdbController`. -/
structure PdbController (ρ τ : Type) where
  context : clusterd.Context ρ τ

/-- The method `ValidateMonCount` of `pdb.go`:
`return minAvaliable == ((monCount / 2) + 1)`. -/
def ValidateMonCount (monCount minAvaliable : Int) : Bool :=
  minAvaliable == goAdd (goDiv monCount 2) 1

/-- The method `ValidateMinAvaliableMon` of `mon.go`:
`return minAvaliable == ((monCount / 2) + 1)`. -/
def ValidateMinAvaliableMon (monCount minAvaliable : Int) : Bool :=
  minAvaliable == goAdd (goDiv monCount 2) 1

/-- The method `GetClusterObj` of `pdb.go`: the cluster object, the error and the log.  A
"not found" error is swallowed and the client's object is passed on as it is. -/
def GetClusterObj {ρ τ : Type} (p : PdbController ρ τ) :
    (Option (cephv1.CephCluster ρ τ) × Option apierrors.APIError) × List LogEvent :=
  let (clusterobj, err) := p.context.getCephCluster namespace_ "rook-ceph"
  match err with
  | some e =>
    if !apierrors.IsNotFound e then
      ((none, some e), [LogEvent.warnRetrieveCluster e])
    else
      ((clusterobj, none), [])
  | none => ((clusterobj, none), [])

/-- The method `getClusterObj` of `mon.go`, the same statements as `GetClusterObj`. -/
def getClusterObj {ρ τ : Type} (p : PdbController ρ τ) :
    (Option (cephv1.CephCluster ρ τ) × Option apierrors.APIError) × List LogEvent :=
  let (clusterobj, err) := p.context.getCephCluster namespace_ "rook-ceph"
  match err with
  | some e =>
    if !apierrors.IsNotFound e then
      ((none, some e), [LogEvent.warnRetrieveCluster e])
    else
      ((clusterobj, none), [])
  | none => ((clusterobj, none), [])

/-- The method `ValidateMinAvailableMonCount` of `pdb.go`: the returned boolean and the log,
or the panic of a nil dereference (`pdb.ObjectMeta`, `clusterObj.Spec`,
`pdb.Spec.MinAvailable.IntVal`). -/
def ValidateMinAvailableMonCount {ρ τ : Type} (p : PdbController ρ τ)
    (pdb : Option v1beta1.PodDisruptionBudget) : Except Fault (Bool × List LogEvent) :=
  let isValid := false
  match pdb with
  | none => .error Fault.nilPointerDereference
  | some pdb =>
    if pdb.ObjectMeta.Name == monPDB then
      let log := [LogEvent.debugMonFound]
      let ((clusterObj, _), log1) := GetClusterObj p
      let log := log ++ log1
      match clusterObj with
      | none => .error Fault.nilPointerDereference
      | some clusterObj =>
        if clusterObj.Spec.Mon.Count != 0 then
          match pdb.Spec.MinAvailable with
          | none => .error Fault.nilPointerDereference
          | some minAvailable =>
            let minAvaliableMon := minAvailable.IntVal
            if !ValidateMonCount clusterObj.Spec.Mon.Count minAvaliableMon then
              .ok (isValid,
                log ++ [LogEvent.warnNotConsistent clusterObj.Spec.Mon.Count minAvaliableMon])
            else
              .ok (true, log)
        else
          .ok (isValid, log)
    else
      .ok (isValid, [])

/-- The method `validateMonPDB` of `mon.go`: the log, or the panic of a nil dereference
(`pdb.ObjectMeta`, `pdb.Spec.MinAvailable.IntVal`). -/
def validateMonPDB {ρ τ : Type} (p : PdbController ρ τ)
    (pdb : Option v1beta1.PodDisruptionBudget) : Except Fault (List LogEvent) :=
  match pdb with
  | none => .error Fault.nilPointerDereference
  | some pdb =>
    if pdb.ObjectMeta.Name == monPDB then
      let log := [LogEvent.debugMonFound]
      let ((clusterObj, _), log1) := getClusterObj p
      let log := log ++ log1
      match clusterObj with
      | some clusterObj =>
        match pdb.Spec.MinAvailable with
        | none => .error Fault.nilPointerDereference
        | some minAvailable =>
          let minAvaliableMon := minAvailable.IntVal
          if !ValidateMinAvaliableMon clusterObj.Spec.Mon.Count minAvaliableMon then
            .ok (log ++
              [LogEvent.warnNotConsistent clusterObj.Spec.Mon.Count minAvaliableMon])
          else
            .ok log
      | none => .ok log
    else
      .ok []

/-- The loop of `GetMonPDB` over `pdbs.Items`: the first budget with the requested name. -/
def GetMonPDB.loop (name : String) :
    List v1beta1.PodDisruptionBudget → Option v1beta1.PodDisruptionBudget
  | [] => none
  | pdb :: items => if pdb.ObjectMeta.Name == name then some pdb else GetMonPDB.loop name items

/-- The method `GetMonPDB` of `pdb.go`: the budget, the error and the log, or the panic of
the nil dereference `pdbs.Items`. -/
def GetMonPDB {ρ τ : Type} (p : PdbController ρ τ) (namespace_ name : String) :
    Except Fault
      ((Option v1beta1.PodDisruptionBudget × Option apierrors.APIError) × List LogEvent) :=
  let (pdbs, err) := p.context.listPodDisruptionBudgets namespace_
  let failed :=
    match err with
    | some e => if !apierrors.IsNotFound e then some e else none
    | none => none
  match failed with
  | some e => .ok ((none, some e), [LogEvent.warnListPDB e])
  | none =>
    match pdbs with
    | none => .error Fault.nilPointerDereference
    | some pdbs =>
      match GetMonPDB.loop name pdbs with
      | some pdb => .ok ((some pdb, none), [LogEvent.infoMonPDBFound])
      | none => .ok ((none, none), [LogEvent.infoNotCreated])

/-- The dynamic value an informer hands to a handler as `interface{}`: a
`*v1beta1.PodDisruptionBudget`, or a value of another type. -/
inductive Payload where
  | podDisruptionBudget (pdb : v1beta1.PodDisruptionBudget)
  | other (description : String)
  deriving DecidableEq, Repr

/-- The assertion `obj.(*v1beta1.PodDisruptionBudget)`: the pointer and `ok`; when the
assertion fails the pointer is nil. -/
def Payload.assertPodDisruptionBudget :
    Payload → Option v1beta1.PodDisruptionBudget × Bool
  | .podDisruptionBudget pdb => (some pdb, true)
  | .other _ => (none, false)

/-- The handler `onAdd` of `pdb.go`: the lines it logs before it calls
`ValidateMinAvailableMonCount`, and the log of that call or its panic. -/
def onAdd {ρ τ : Type} (p : PdbController ρ τ) (obj : Payload) :
    List LogEvent × Except Fault (List LogEvent) :=
  let log := [LogEvent.eventReceived]
  let (newPDB, ok) := obj.assertPodDisruptionBudget
  let log := if !ok then log ++ [LogEvent.warnUnexpectedType] else log
  (log, Except.map Prod.snd (ValidateMinAvailableMonCount p newPDB))

/-- The handler `onUpdate` of `pdb.go`: the lines it logs before it calls
`ValidateMinAvailableMonCount`, and the log of that call or its panic. -/
def onUpdate {ρ τ : Type} (p : PdbController ρ τ) (_oldObj newObj : Payload) :
    List LogEvent × Except Fault (List LogEvent) :=
  let log := [LogEvent.eventReceived]
  let (newPDB, ok) := newObj.assertPodDisruptionBudget
  let log := if !ok then log ++ [LogEvent.warnUnexpectedType] else log
  (log, Except.map Prod.snd (ValidateMinAvailableMonCount p newPDB))

end pdb

/-! ## Package `exec` (`error.go`) -/

namespace exec

/-- What `e.ProcessState.Sys()` of an `*exec.ExitError` holds: a `syscall.WaitStatus`,
given by the value of its method `ExitStatus()`, or a value of another type. -/
inductive SysValue where
  | waitStatus (exitStatus : Int)
  | other
  deriving DecidableEq, Repr

/-- The values of the interface `error` that `ExitStatus` tells apart: the nil interface,
an `*exec.ExitError`, a `kexec.CodeExitError{Err, Code}`, a `*CephCLIError{err, output}`
(`err` is the inner cause, possibly nil), a `syscall.Errno` (a `uintptr`), and an error of
any other dynamic type.  A pointer held by the interface points to an existing value. -/
inductive Error where
  | nil
  | exitError (sys : SysValue)
  | codeExitError (Err : Error) (Code : Int)
  | cephCLIError (err : Error) (output : String)
  | errno (e : Nat)
  | other (msg : String)
  deriving DecidableEq, Repr

/-- The function `ExitStatus`: the type switch on `err`.  The diagnostic `fmt.Println`
lines write to standard output and do not enter the returned pair. -/
def ExitStatus : Error → Int × Bool
  | .exitError sys =>
    match sys with
    | .waitStatus exitStatus => (exitStatus, true)
    | .other => (0, false)
  | .codeExitError _ Code => (Code, true)
  | .cephCLIError err _ => ExitStatus err
  | .errno e => (wrapInt64 (e : Int), true)
  | .nil => (0, false)
  | .other _ => (0, false)

end exec

/-! ## Package `clusterdisruption` (`add.go`) and the controller-runtime types it uses -/

namespace appsv1

/-- The declaration `appsv1.DeploymentStatus`, of which the code reads the `int32`
`UnavailableReplicas`. -/
structure DeploymentStatus where
  UnavailableReplicas : Int := 0
  deriving DecidableEq, Repr

/-- The declaration `appsv1.Deployment`. -/
structure Deployment where
  ObjectMeta : metav1.ObjectMeta
  Status : DeploymentStatus := {}
  deriving DecidableEq, Repr

end appsv1

namespace client

/-- The dynamic types of a `client.Object` delivered by the watches of `Add`: the kinds the
code asserts or watches; a kind whose other fields the code never reads is given by its
metadata. -/
inductive Object (ρ τ : Type) where
  | cephCluster (c : cephv1.CephCluster ρ τ)
  | deployment (d : appsv1.Deployment)
  | cephBlockPool (m : metav1.ObjectMeta)
  | cephFilesystem (m : metav1.ObjectMeta)
  | cephObjectStore (m : metav1.ObjectMeta)
  | other (m : metav1.ObjectMeta)

variable {ρ τ : Type}

/-- The metadata of an object. -/
def Object.ObjectMeta : Object ρ τ → metav1.ObjectMeta
  | .cephCluster c => c.ObjectMeta
  | .deployment d => d.ObjectMeta
  | .cephBlockPool m => m
  | .cephFilesystem m => m
  | .cephObjectStore m => m
  | .other m => m

/-- The method `GetNamespace`. -/
def Object.GetNamespace (o : Object ρ τ) : String := o.ObjectMeta.Namespace

/-- The method `GetName`. -/
def Object.GetName (o : Object ρ τ) : String := o.ObjectMeta.Name

/-- The method `DeepCopyObject`: a copy equal to the object. -/
def Object.DeepCopyObject (o : Object ρ τ) : Object ρ τ := o

end client

namespace types

/-- The declaration `types.NamespacedName`. -/
structure NamespacedName where
  Namespace : String := ""
  Name : String := ""
  deriving DecidableEq, Repr

end types

namespace reconcile

/-- The declaration `reconcile.Request`. -/
structure Request where
  NamespacedName : types.NamespacedName
  deriving DecidableEq, Repr

end reconcile

namespace event

/-- The declaration `event.CreateEvent`. -/
structure CreateEvent (ρ τ : Type) where
  Object : client.Object ρ τ

/-- The declaration `event.UpdateEvent`. -/
structure UpdateEvent (ρ τ : Type) where
  ObjectOld : client.Object ρ τ
  ObjectNew : client.Object ρ τ

/-- The declaration `event.DeleteEvent`. -/
structure DeleteEvent (ρ τ : Type) where
  Object : client.Object ρ τ

/-- An event a watch delivers: one of the three verbs. -/
inductive Event (ρ τ : Type) where
  | create (e : CreateEvent ρ τ)
  | update (e : UpdateEvent ρ τ)
  | delete (e : DeleteEvent ρ τ)

end event

namespace predicate

/-- The declaration `predicate.Funcs` of controller-runtime: a filter per verb, each of
which may be left unset (nil). -/
structure Funcs (ρ τ : Type) where
  CreateFunc : Option (event.CreateEvent ρ τ → Bool) := none
  UpdateFunc : Option (event.UpdateEvent ρ τ → Bool) := none
  DeleteFunc : Option (event.DeleteEvent ρ τ → Bool) := none

variable {ρ τ : Type}

/-- The method `Funcs.Create` of controller-runtime: the filter if it is set, and `true`
if it is not. -/
def Funcs.Create (p : Funcs ρ τ) (e : event.CreateEvent ρ τ) : Bool :=
  match p.CreateFunc with
  | some f => f e
  | none => true

/-- The method `Funcs.Update` of controller-runtime: the filter if it is set, and `true`
if it is not. -/
def Funcs.Update (p : Funcs ρ τ) (e : event.UpdateEvent ρ τ) : Bool :=
  match p.UpdateFunc with
  | some f => f e
  | none => true

/-- The method `Funcs.Delete` of controller-runtime: the filter if it is set, and `true`
if it is not. -/
def Funcs.Delete (p : Funcs ρ τ) (e : event.DeleteEvent ρ τ) : Bool :=
  match p.DeleteFunc with
  | some f => f e
  | none => true

/-- Whether the predicate admits an event, by its verb. -/
def Funcs.admits (p : Funcs ρ τ) : event.Event ρ τ → Bool
  | .create e => p.Create e
  | .update e => p.Update e
  | .delete e => p.Delete e

end predicate

namespace handler

variable {ρ τ : Type}

/-- The work queue's `Add`: a request equal to one already queued is not queued again. -/
def queueAdd (q : List reconcile.Request) (r : reconcile.Request) : List reconcile.Request :=
  if r ∈ q then q else q ++ [r]

/-- The request naming an object: its name and its namespace. -/
def requestFor (o : client.Object ρ τ) : reconcile.Request :=
  { NamespacedName := { Name := o.GetName, Namespace := o.GetNamespace } }

/-- The handler `handler.EnqueueRequestForObject` of controller-runtime, as the requests it
adds to an empty queue: the request naming the object of a create or delete event, and the
requests naming the old and the new object of an update event. -/
def EnqueueRequestForObject : event.Event ρ τ → List reconcile.Request
  | .create e => queueAdd [] (requestFor e.Object)
  | .update e => queueAdd (queueAdd [] (requestFor e.ObjectOld)) (requestFor e.ObjectNew)
  | .delete e => queueAdd [] (requestFor e.Object)

/-- The handler `handler.EnqueueRequestsFromMapFunc` of controller-runtime, as the requests
it adds to an empty queue: the map function is applied to the object of a create or delete
event, and to the old and then the new object of an update event. -/
def EnqueueRequestsFromMapFunc (fn : client.Object ρ τ → List reconcile.Request) :
    event.Event ρ τ → List reconcile.Request
  | .create e => (fn e.Object).foldl queueAdd []
  | .update e => (fn e.ObjectNew).foldl queueAdd ((fn e.ObjectOld).foldl queueAdd [])
  | .delete e => (fn e.Object).foldl queueAdd []

/-- The method `Watch` of a controller, for one event: the handler runs if every
predicate of the watch admits the event, and nothing is queued otherwise. -/
def Watch (h : event.Event ρ τ → List reconcile.Request)
    (predicates : List (predicate.Funcs ρ τ)) (ev : event.Event ρ τ) :
    List reconcile.Request :=
  if predicates.all (fun p => p.admits ev) then h ev else []

end handler

namespace clusterdisruption

variable {ρ τ : Type}

/-- The value `cephClusterPredicate` of `Add`; `reflect.DeepEqual` on the two specs is
equality of the spec values. -/
def cephClusterPredicate [DecidableEq ρ] : predicate.Funcs ρ τ :=
  { CreateFunc := some (fun _ => true)
    UpdateFunc := some (fun e =>
      match e.ObjectOld.DeepCopyObject with
      | .cephCluster oldCluster =>
        match e.ObjectNew.DeepCopyObject with
        | .cephCluster newCluster => !(decide (oldCluster.Spec = newCluster.Spec))
        | _ => false
      | _ => false) }

/-- The value `osdPredicate` of `Add`. -/
def osdPredicate : predicate.Funcs ρ τ :=
  { CreateFunc := some (fun _ => false)
    UpdateFunc := some (fun e =>
      match e.ObjectNew.DeepCopyObject with
      | .deployment osd => decide (osd.Status.UnavailableReplicas > 0)
      | _ => false)
    DeleteFunc := some (fun _ => false) }

/-- The map function of the watch on deployments in `Add`.  The constants
`k8sutil.AppAttr` and `osd.AppName` are declared outside the sources at hand and are
parameters. -/
def osdMapFunc (AppAttr AppName : String) (obj : client.Object ρ τ) :
    List reconcile.Request :=
  match obj with
  | .deployment deployment =>
    let labels := deployment.ObjectMeta.Labels
    match labels.lookup AppAttr with
    | none => []
    | some appName =>
      if appName != AppName then []
      else
        let req : reconcile.Request :=
          { NamespacedName := { Namespace := deployment.ObjectMeta.Namespace } }
        [req]
  | _ => []

/-- The map function of `enqueueByNamespace` in `Add`. -/
def enqueueByNamespaceMapFunc (obj : client.Object ρ τ) : List reconcile.Request :=
  let namespace_ := obj.GetNamespace
  if namespace_.length == 0 then []
  else
    let req : reconcile.Request := { NamespacedName := { Namespace := namespace_ } }
    [req]

/-- The handler `enqueueByNamespace` of `Add`. -/
def enqueueByNamespace : event.Event ρ τ → List reconcile.Request :=
  handler.EnqueueRequestsFromMapFunc enqueueByNamespaceMapFunc

/-- The watch on CephClusters registered by `Add`:
`c.Watch(Kind CephCluster, EnqueueRequestForObject, cephClusterPredicate)`. -/
def watchCephClusters [DecidableEq ρ] (ev : event.Event ρ τ) : List reconcile.Request :=
  handler.Watch handler.EnqueueRequestForObject [cephClusterPredicate] ev

/-- The watch on deployments registered by `Add`:
`c.Watch(Kind Deployment, EnqueueRequestsFromMapFunc(...), osdPredicate)`. -/
def watchDeployments (AppAttr AppName : String) (ev : event.Event ρ τ) :
    List reconcile.Request :=
  handler.Watch (handler.EnqueueRequestsFromMapFunc (osdMapFunc AppAttr AppName))
    [osdPredicate] ev

/-- The watches on CephBlockPools, CephFilesystems and CephObjectStores registered by
`Add`: `c.Watch(Kind ..., enqueueByNamespace)`, with no predicate. -/
def watchAuxiliary (ev : event.Event ρ τ) : List reconcile.Request :=
  handler.Watch enqueueByNamespace [] ev

end clusterdisruption

/-! ## Fixtures of `pdb_test.go` -/

namespace pdb.test

/-- The budget built by the helper `createMonPDB(minAvailable, name)` of the tests. -/
def createMonPDB (minAvailable : Int) (name : String) : v1beta1.PodDisruptionBudget :=
  { ObjectMeta := { Name := name }
    Spec := { MinAvailable := some (intstr.FromInt minAvailable) } }

/-- The cluster built by the helper `createCluster(monCount)` of the tests. -/
def createCluster (monCount : Int) : cephv1.CephCluster Unit Unit :=
  { ObjectMeta := { Name := "rook-ceph" }
    Spec := { Mon := { Count := monCount }, Rest := () }
    Status := () }

/-- A controller over the tests' in-memory clients, holding the given cluster (if any) in
the namespace `rook-ceph` and the given budgets: `Get` answers with the stored cluster or
with a "not found" error and no object. -/
def controller (cluster : Option (cephv1.CephCluster Unit Unit))
    (budgets : List v1beta1.PodDisruptionBudget) : PdbController Unit Unit :=
  { context :=
      { getCephCluster := fun ns name =>
          match cluster with
          | some c =>
            if ns = namespace_ ∧ name = c.ObjectMeta.Name then (some c, none)
            else (none, some (apierrors.APIError.notFound name))
          | none => (none, some (apierrors.APIError.notFound name))
        listPodDisruptionBudgets := fun ns =>
          if ns = namespace_ then (some budgets, none) else (some [], none) } }

/-- A budget with the given name whose spec sets no `MinAvailable` (as one that sets
`MaxUnavailable` instead). -/
def budgetWithoutMinAvailable (name : String) : v1beta1.PodDisruptionBudget :=
  { ObjectMeta := { Name := name } }

end pdb.test

/-! ## Fixtures for the event router -/

namespace clusterdisruption.test

/-- A deployment in the namespace `rook-ceph` with the given name, value of the label `app`
and unavailable-replica count. -/
def deployment (name app : String) (unavailable : Int) : appsv1.Deployment :=
  { ObjectMeta := { Name := name, Namespace := "rook-ceph", Labels := [("app", app)] }
    Status := { UnavailableReplicas := unavailable } }

/-- An update event of the deployment stream: the unavailable-replica count of the
deployment goes from `before` to `after`. -/
def deploymentUpdate (name app : String) (before after : Int) : event.Event Unit Unit :=
  event.Event.update
    { ObjectOld := client.Object.deployment (deployment name app before)
      ObjectNew := client.Object.deployment (deployment name app after) }

/-- The CephCluster `rook-ceph` of the namespace `rook-ceph` with the given mon count. -/
def cluster (monCount : Int) : cephv1.CephCluster Unit Unit :=
  { ObjectMeta := { Name := "rook-ceph", Namespace := "rook-ceph" }
    Spec := { Mon := { Count := monCount }, Rest := () }
    Status := () }

/-- A CephBlockPool named `replicapool` in the given namespace. -/
def blockPool (ns : String) : client.Object Unit Unit :=
  client.Object.cephBlockPool { Name := "replicapool", Namespace := ns }

end clusterdisruption.test

/-! ## Notions of the specification -/

namespace exec

/-- An error wrapped `k` times in `CephCLIError`; the wrapper at depth `i` carries the
output `output i`. -/
def wrapCephCLI (output : Nat → String) : Nat → Error → Error
  | 0, e => e
  | k + 1, e => Error.cephCLIError (wrapCephCLI output k e) (output k)

/-- The error left after unwrapping every `CephCLIError` wrapper. -/
def unwrapCephCLI : Error → Error
  | .cephCLIError err _ => unwrapCephCLI err
  | .nil => .nil
  | .exitError sys => .exitError sys
  | .codeExitError Err Code => .codeExitError Err Code
  | .errno e => .errno e
  | .other msg => .other msg

/-- An error the specification counts as classified: a process-exit error carrying an OS
wait status, a coded-exit error, or a raw `Errno` value. -/
def IsClassified : Error → Bool
  | .exitError (.waitStatus _) => true
  | .codeExitError _ _ => true
  | .errno _ => true
  | _ => false

end exec

/-! ## Arithmetic of the quorum threshold -/

/-- Truncated division by two, by the sign of the dividend. -/
theorem tdiv_two_cases (n : Int) :
    (0 ≤ n ∧ Int.tdiv n 2 = n / 2) ∨ (n < 0 ∧ Int.tdiv n 2 = -((-n) / 2)) := by
  rcases le_or_lt 0 n with h | h
  · exact Or.inl ⟨h, Int.tdiv_eq_ediv h (by decide)⟩
  · refine Or.inr ⟨h, ?_⟩
    have h1 : Int.tdiv (-(-n)) 2 = -(Int.tdiv (-n) 2) := Int.neg_tdiv (-n) 2
    rw [neg_neg] at h1
    rw [h1, Int.tdiv_eq_ediv (by omega) (by decide)]

/-- On a 64-bit mon count, `(monCount / 2) + 1` does not overflow. -/
theorem goAdd_goDiv_two (n : Int) (h : IsInt64 n) :
    goAdd (goDiv n 2) 1 = Int.tdiv n 2 + 1 := by
  unfold goAdd goDiv wrapInt64
  unfold IsInt64 at h
  rcases tdiv_two_cases n with ⟨h0, e⟩ | ⟨h0, e⟩ <;> rw [e] <;> omega

/-- On a non-negative 64-bit mon count, `(monCount / 2) + 1` is `floor(n/2) + 1`. -/
theorem goAdd_goDiv_two_nonneg (n : Int) (h0 : 0 ≤ n) (h1 : n < 2 ^ 63) :
    goAdd (goDiv n 2) 1 = Int.fdiv n 2 + 1 := by
  rw [goAdd_goDiv_two n ⟨by omega, h1⟩, Int.fdiv_eq_ediv n (by decide),
    Int.tdiv_eq_ediv h0 (by decide)]

/-! ## Claims -/

/-- C1: for every mon count `n ≥ 0` (a Go `int`) and every integer `m`,
`ValidateMonCount n m` and the legacy `ValidateMinAvaliableMon n m` return true exactly
when `m = floor(n/2) + 1`; for `n = 3, 4, 5, 6, 7` the accepted `m` is `2, 3, 3, 4, 4`. -/
theorem C1_validateMonCount_iff (n m : Int) (h0 : 0 ≤ n) (h1 : n < 2 ^ 63) :
    (pdb.ValidateMonCount n m = true ↔ m = Int.fdiv n 2 + 1) ∧
    (pdb.ValidateMinAvaliableMon n m = true ↔ m = Int.fdiv n 2 + 1) ∧
    (pdb.ValidateMonCount 3 m = true ↔ m = 2) ∧
    (pdb.ValidateMonCount 4 m = true ↔ m = 3) ∧
    (pdb.ValidateMonCount 5 m = true ↔ m = 3) ∧
    (pdb.ValidateMonCount 6 m = true ↔ m = 4) ∧
    (pdb.ValidateMonCount 7 m = true ↔ m = 4) ∧
    (pdb.ValidateMinAvaliableMon 3 m = true ↔ m = 2) ∧
    (pdb.ValidateMinAvaliableMon 4 m = true ↔ m = 3) ∧
    (pdb.ValidateMinAvaliableMon 5 m = true ↔ m = 3) ∧
    (pdb.ValidateMinAvaliableMon 6 m = true ↔ m = 4) ∧
    (pdb.ValidateMinAvaliableMon 7 m = true ↔ m = 4) := by
  have key : ∀ k : Int, 0 ≤ k → k < 2 ^ 63 → goAdd (goDiv k 2) 1 = k / 2 + 1 := by
    intro k hk0 hk1
    rw [goAdd_goDiv_two_nonneg k hk0 hk1, Int.fdiv_eq_ediv k (by decide)]
  have e3 := key 3 (by decide) (by decide)
  have e4 := key 4 (by decide) (by decide)
  have e5 := key 5 (by decide) (by decide)
  have e6 := key 6 (by decide) (by decide)
  have e7 := key 7 (by decide) (by decide)
  have en := goAdd_goDiv_two_nonneg n h0 h1
  simp only [pdb.ValidateMonCount, pdb.ValidateMinAvaliableMon, beq_iff_eq, en, e3, e4, e5,
    e6, e7]
  norm_num

/-- C1 at the mon count 5 and the threshold 3. -/
theorem C1_validateMonCount_iff_witness :
    (pdb.ValidateMonCount 5 3 = true ↔ (3 : Int) = Int.fdiv 5 2 + 1) ∧
    (pdb.ValidateMinAvaliableMon 5 3 = true ↔ (3 : Int) = Int.fdiv 5 2 + 1) :=
  ⟨(C1_validateMonCount_iff 5 3 (by decide) (by decide)).1,
   (C1_validateMonCount_iff 5 3 (by decide) (by decide)).2.1⟩

/-- C2: for every budget `b` and every cluster with a non-zero (64-bit) mon count `n`,
`ValidateMinAvailableMonCount b` returns true exactly when `b` is named `mon-pdb` and its
minAvailable is `n/2 + 1` in Go's integer division; when minAvailable is set the call
returns that truth value; a budget with another name yields false with nothing evaluated
or logged, for every controller. -/
theorem C2_validateMinAvailableMonCount_iff {ρ τ : Type} (p : pdb.PdbController ρ τ)
    (b : v1beta1.PodDisruptionBudget) (c : cephv1.CephCluster ρ τ)
    (hget : (pdb.GetClusterObj p).1.1 = some c)
    (hn : c.Spec.Mon.Count ≠ 0) (hr : IsInt64 c.Spec.Mon.Count) :
    (Except.map Prod.fst (pdb.ValidateMinAvailableMonCount p (some b)) = .ok true ↔
      b.ObjectMeta.Name = "mon-pdb" ∧
        ∃ v, b.Spec.MinAvailable = some v ∧ v.IntVal = Int.tdiv c.Spec.Mon.Count 2 + 1) ∧
    (∀ v, b.Spec.MinAvailable = some v →
      Except.map Prod.fst (pdb.ValidateMinAvailableMonCount p (some b)) =
        .ok (decide (b.ObjectMeta.Name = "mon-pdb" ∧
          v.IntVal = Int.tdiv c.Spec.Mon.Count 2 + 1))) ∧
    (∀ q : pdb.PdbController ρ τ, b.ObjectMeta.Name ≠ "mon-pdb" →
      pdb.ValidateMinAvailableMonCount q (some b) = .ok (false, [])) := by
  have hsum := goAdd_goDiv_two c.Spec.Mon.Count hr
  have hthird : ∀ q : pdb.PdbController ρ τ, b.ObjectMeta.Name ≠ "mon-pdb" →
      pdb.ValidateMinAvailableMonCount q (some b) = .ok (false, []) := by
    intro q hname
    simp [pdb.ValidateMinAvailableMonCount, pdb.monPDB, hname]
  refine ⟨?_, ?_, hthird⟩
  · by_cases hname : b.ObjectMeta.Name = "mon-pdb"
    · rcases hmin : b.Spec.MinAvailable with _ | v
      · rcases hg : pdb.GetClusterObj p with ⟨⟨co, e⟩, l⟩
        rw [hg] at hget
        simp only at hget
        subst hget
        simp [pdb.ValidateMinAvailableMonCount, pdb.monPDB, hname, hg, hn, hmin, Except.map]
      · rcases hg : pdb.GetClusterObj p with ⟨⟨co, e⟩, l⟩
        rw [hg] at hget
        simp only at hget
        subst hget
        by_cases hv : v.IntVal = Int.tdiv c.Spec.Mon.Count 2 + 1
        · simp [pdb.ValidateMinAvailableMonCount, pdb.monPDB, hname, hg, hn, hmin,
            Except.map, pdb.ValidateMonCount, hsum, hv]
        · simp [pdb.ValidateMinAvailableMonCount, pdb.monPDB, hname, hg, hn, hmin,
            Except.map, pdb.ValidateMonCount, hsum, hv]
    · rw [hthird p hname]
      simp [Except.map, hname]
  · intro v hmin
    by_cases hname : b.ObjectMeta.Name = "mon-pdb"
    · rcases hg : pdb.GetClusterObj p with ⟨⟨co, e⟩, l⟩
      rw [hg] at hget
      simp only at hget
      subst hget
      by_cases hv : v.IntVal = Int.tdiv c.Spec.Mon.Count 2 + 1
      · simp [pdb.ValidateMinAvailableMonCount, pdb.monPDB, hname, hg, hn, hmin,
          Except.map, pdb.ValidateMonCount, hsum, hv]
      · simp [pdb.ValidateMinAvailableMonCount, pdb.monPDB, hname, hg, hn, hmin,
          Except.map, pdb.ValidateMonCount, hsum, hv]
    · rw [hthird p hname]
      simp [Except.map, hname]

/-- C2 on the three cases of `pdb_test.go`: minAvailable 3 with 4 mons is true, with 6 mons
false, and a budget named `test` with minAvailable 3 and 6 mons is false. -/
theorem C2_validateMinAvailableMonCount_iff_witness :
    Except.map Prod.fst (pdb.ValidateMinAvailableMonCount
        (pdb.test.controller (some (pdb.test.createCluster 4)) [])
        (some (pdb.test.createMonPDB 3 "mon-pdb"))) = .ok true ∧
    Except.map Prod.fst (pdb.ValidateMinAvailableMonCount
        (pdb.test.controller (some (pdb.test.createCluster 6)) [])
        (some (pdb.test.createMonPDB 3 "mon-pdb"))) = .ok false ∧
    pdb.ValidateMinAvailableMonCount
        (pdb.test.controller (some (pdb.test.createCluster 6)) [])
        (some (pdb.test.createMonPDB 3 "test")) = .ok (false, []) :=
  ⟨(C2_validateMinAvailableMonCount_iff
      (pdb.test.controller (some (pdb.test.createCluster 4)) [])
      (pdb.test.createMonPDB 3 "mon-pdb") (pdb.test.createCluster 4)
      rfl (by decide) (by decide)).1.2 ⟨rfl, intstr.FromInt 3, rfl, by decide⟩,
   (C2_validateMinAvailableMonCount_iff
      (pdb.test.controller (some (pdb.test.createCluster 6)) [])
      (pdb.test.createMonPDB 3 "mon-pdb") (pdb.test.createCluster 6)
      rfl (by decide) (by decide)).2.1 (intstr.FromInt 3) rfl,
   (C2_validateMinAvailableMonCount_iff
      (pdb.test.controller (some (pdb.test.createCluster 6)) [])
      (pdb.test.createMonPDB 3 "test") (pdb.test.createCluster 6)
      rfl (by decide) (by decide)).2.2
      (pdb.test.controller (some (pdb.test.createCluster 6)) []) (by decide)⟩

/-- C3, as stated, fails: at mon count 0 the pure checks return the valid outcome for
minAvailable 1 and the invalid outcome for minAvailable 3, and the legacy `validateMonPDB`
logs the inconsistency warning for a cluster with 0 mons. -/
theorem C3_counterexample :
    pdb.ValidateMonCount 0 1 = true ∧ pdb.ValidateMinAvaliableMon 0 1 = true ∧
    pdb.ValidateMonCount 0 3 = false ∧ pdb.ValidateMinAvaliableMon 0 3 = false ∧
    pdb.validateMonPDB (pdb.test.controller (some (pdb.test.createCluster 0)) [])
        (some (pdb.test.createMonPDB 3 "mon-pdb")) =
      .ok [pdb.LogEvent.debugMonFound, pdb.LogEvent.warnNotConsistent 0 3] :=
  ⟨by decide, by decide, by decide, by decide, rfl⟩

/-- C3, amended: against a cluster whose mon count is 0, `ValidateMinAvailableMonCount`
returns false for every budget and every minAvailable, without comparing the two numbers
and without the inconsistency warning (its log is the debug line of a `mon-pdb` budget, or
empty); the pure checks have the two boolean outcomes only and at mon count 0 accept
exactly minAvailable 1. -/
theorem C3_zero_monCount_skipped {ρ τ : Type} (p : pdb.PdbController ρ τ)
    (b : v1beta1.PodDisruptionBudget) (c : cephv1.CephCluster ρ τ) (m : Int)
    (hget : (pdb.GetClusterObj p).1.1 = some c) (h0 : c.Spec.Mon.Count = 0) :
    pdb.ValidateMinAvailableMonCount p (some b) =
      .ok (false, if b.ObjectMeta.Name = "mon-pdb" then [pdb.LogEvent.debugMonFound] else []) ∧
    (pdb.ValidateMonCount 0 m = true ↔ m = 1) ∧
    (pdb.ValidateMinAvaliableMon 0 m = true ↔ m = 1) := by
  have hsum : goAdd (goDiv 0 2) 1 = 1 := by decide
  refine ⟨?_, ?_, ?_⟩
  · have hlog : (pdb.GetClusterObj p).2 = [] := by
      unfold pdb.GetClusterObj at hget ⊢
      rcases hc : p.context.getCephCluster pdb.namespace_ "rook-ceph" with ⟨co, e⟩
      rw [hc] at hget
      rcases e with _ | e
      · rfl
      · by_cases hnf : apierrors.IsNotFound e = true
        · simp [hnf]
        · simp [hnf] at hget
    rcases hg : pdb.GetClusterObj p with ⟨⟨co, e⟩, l⟩
    rw [hg] at hget hlog
    simp only at hget hlog
    subst hget hlog
    by_cases hname : b.ObjectMeta.Name = "mon-pdb"
    · simp [pdb.ValidateMinAvailableMonCount, pdb.monPDB, hname, hg, h0]
    · simp [pdb.ValidateMinAvailableMonCount, pdb.monPDB, hname]
  · simp [pdb.ValidateMonCount, hsum]
  · simp [pdb.ValidateMinAvaliableMon, hsum]

/-- C3 (amended) at the tests' cluster with 0 mons and the budget `mon-pdb` with
minAvailable 3. -/
theorem C3_zero_monCount_skipped_witness :
    pdb.ValidateMinAvailableMonCount
        (pdb.test.controller (some (pdb.test.createCluster 0)) [])
        (some (pdb.test.createMonPDB 3 "mon-pdb")) =
      .ok (false, [pdb.LogEvent.debugMonFound]) ∧
    (pdb.ValidateMonCount 0 3 = true ↔ (3 : Int) = 1) :=
  ⟨(C3_zero_monCount_skipped
      (pdb.test.controller (some (pdb.test.createCluster 0)) [])
      (pdb.test.createMonPDB 3 "mon-pdb") (pdb.test.createCluster 0) 3 rfl rfl).1,
   (C3_zero_monCount_skipped
      (pdb.test.controller (some (pdb.test.createCluster 0)) [])
      (pdb.test.createMonPDB 3 "mon-pdb") (pdb.test.createCluster 0) 3 rfl rfl).2.1⟩

/-- C4: for every mon count `n > 0` (a Go `int`) exactly one `m` is accepted by
`ValidateMonCount n m`, and it is the smallest strict majority of `n`: `2 * m > n`, and
`2 * m' ≤ n` for every integer `m' < m`. -/
theorem C4_threshold_least_majority (n : Int) (hpos : 0 < n) (hr : n < 2 ^ 63) :
    (∃! m : Int, pdb.ValidateMonCount n m = true) ∧
    ∀ m : Int, pdb.ValidateMonCount n m = true →
      2 * m > n ∧ ∀ m' : Int, m' < m → 2 * m' ≤ n := by
  have hsum : goAdd (goDiv n 2) 1 = n / 2 + 1 := by
    rw [goAdd_goDiv_two_nonneg n (le_of_lt hpos) hr, Int.fdiv_eq_ediv n (by decide)]
  have hiff : ∀ m : Int, pdb.ValidateMonCount n m = true ↔ m = n / 2 + 1 := by
    intro m
    simp [pdb.ValidateMonCount, hsum]
  refine ⟨⟨n / 2 + 1, (hiff _).2 rfl, fun m hm => (hiff m).1 hm⟩, ?_⟩
  intro m hm
  have hm1 := (hiff m).1 hm
  refine ⟨by omega, ?_⟩
  intro m' hlt
  omega

/-- C4 at the mon count 5: the accepted threshold 3 is a strict majority and 2 is not. -/
theorem C4_threshold_least_majority_witness :
    (∃! m : Int, pdb.ValidateMonCount 5 m = true) ∧
    (2 * (3 : Int) > 5 ∧ ∀ m' : Int, m' < 3 → 2 * m' ≤ 5) :=
  ⟨(C4_threshold_least_majority 5 (by decide) (by decide)).1,
   (C4_threshold_least_majority 5 (by decide) (by decide)).2 3 (by decide)⟩

/-- Unwrapping the `CephCLIError` wrappers does not change the exit status. -/
theorem exitStatus_unwrapCephCLI (err : exec.Error) :
    exec.ExitStatus (exec.unwrapCephCLI err) = exec.ExitStatus err := by
  induction err with
  | cephCLIError err output ih => simpa [exec.unwrapCephCLI, exec.ExitStatus] using ih
  | nil => rfl
  | exitError sys => rfl
  | codeExitError Err Code _ => rfl
  | errno e => rfl
  | other msg => rfl

/-- C5: a `CephCLIError` wrapper is transparent to `ExitStatus`: the status of a wrapper
with inner cause `e` is the status of `e`, at one level and at every nesting depth `k`;
a coded-exit error with code `c` wrapped `k` times yields `(c, true)`, and status 13
wrapped twice yields `(13, true)`. -/
theorem C5_cephCLIError_transparent (e inner : exec.Error) (out out1 out2 : String)
    (output : Nat → String) (k : Nat) (c : Int) :
    exec.ExitStatus (exec.Error.cephCLIError e out) = exec.ExitStatus e ∧
    exec.ExitStatus (exec.wrapCephCLI output k e) = exec.ExitStatus e ∧
    exec.ExitStatus (exec.wrapCephCLI output k (exec.Error.codeExitError inner c)) =
      (c, true) ∧
    exec.ExitStatus (exec.Error.cephCLIError
      (exec.Error.cephCLIError (exec.Error.codeExitError inner 13) out1) out2) =
      (13, true) := by
  have hwrap : ∀ (k : Nat) (e : exec.Error),
      exec.ExitStatus (exec.wrapCephCLI output k e) = exec.ExitStatus e := by
    intro k
    induction k with
    | zero => intro e; rfl
    | succ k ih => intro e; simpa [exec.wrapCephCLI, exec.ExitStatus] using ih e
  refine ⟨by simp [exec.ExitStatus], hwrap k e, ?_, by simp [exec.ExitStatus]⟩
  rw [hwrap k]
  simp [exec.ExitStatus]

/-- C6: `ExitStatus err` is `(0, false)` exactly when the error left after unwrapping every
`CephCLIError` wrapper is not a process-exit error with a wait status, a coded-exit error
or an `Errno` value; this includes the nil error and a wrapper with no inner cause.  A
coded-exit error yields `(code, true)`, an `Errno` value `e` yields `(int(e), true)`, also
under wrappers. -/
theorem C6_exitStatus_unknown_iff (err inner : exec.Error) (out : String)
    (output : Nat → String) (k : Nat) (c : Int) (e : Nat) :
    (exec.ExitStatus err = (0, false) ↔ exec.IsClassified (exec.unwrapCephCLI err) = false) ∧
    ((exec.ExitStatus err).2 = true ↔ exec.IsClassified (exec.unwrapCephCLI err) = true) ∧
    exec.ExitStatus exec.Error.nil = (0, false) ∧
    exec.ExitStatus (exec.Error.cephCLIError exec.Error.nil out) = (0, false) ∧
    exec.ExitStatus (exec.Error.codeExitError inner c) = (c, true) ∧
    exec.ExitStatus (exec.Error.errno e) = (wrapInt64 (e : Int), true) ∧
    exec.ExitStatus (exec.wrapCephCLI output k (exec.Error.errno e)) =
      (wrapInt64 (e : Int), true) ∧
    exec.ExitStatus (exec.Error.errno 13) = (13, true) := by
  have h1 : ∀ err : exec.Error,
      (exec.ExitStatus err = (0, false) ↔
        exec.IsClassified (exec.unwrapCephCLI err) = false) := by
    intro err
    induction err with
    | cephCLIError err output ih => simpa [exec.unwrapCephCLI, exec.ExitStatus] using ih
    | nil => simp [exec.unwrapCephCLI, exec.ExitStatus, exec.IsClassified]
    | exitError sys =>
      cases sys <;> simp [exec.unwrapCephCLI, exec.ExitStatus, exec.IsClassified]
    | codeExitError Err Code _ =>
      simp [exec.unwrapCephCLI, exec.ExitStatus, exec.IsClassified]
    | errno e => simp [exec.unwrapCephCLI, exec.ExitStatus, exec.IsClassified]
    | other msg => simp [exec.unwrapCephCLI, exec.ExitStatus, exec.IsClassified]
  have h2 : ∀ err : exec.Error,
      ((exec.ExitStatus err).2 = true ↔
        exec.IsClassified (exec.unwrapCephCLI err) = true) := by
    intro err
    induction err with
    | cephCLIError err output ih => simpa [exec.unwrapCephCLI, exec.ExitStatus] using ih
    | nil => simp [exec.unwrapCephCLI, exec.ExitStatus, exec.IsClassified]
    | exitError sys =>
      cases sys <;> simp [exec.unwrapCephCLI, exec.ExitStatus, exec.IsClassified]
    | codeExitError Err Code _ =>
      simp [exec.unwrapCephCLI, exec.ExitStatus, exec.IsClassified]
    | errno e => simp [exec.unwrapCephCLI, exec.ExitStatus, exec.IsClassified]
    | other msg => simp [exec.unwrapCephCLI, exec.ExitStatus, exec.IsClassified]
  have hwrap : ∀ (k : Nat) (e : exec.Error),
      exec.ExitStatus (exec.wrapCephCLI output k e) = exec.ExitStatus e := by
    intro k
    induction k with
    | zero => intro e; rfl
    | succ k ih => intro e; simpa [exec.wrapCephCLI, exec.ExitStatus] using ih e
  refine ⟨h1 err, h2 err, rfl, rfl, rfl, rfl, ?_, by decide⟩
  rw [hwrap k]
  rfl

/-- A string of length zero is the empty string. -/
theorem string_length_eq_zero_iff (s : String) : s.length = 0 ↔ s = "" := by
  constructor
  · intro h
    have hd : s.data = [] := List.length_eq_zero.mp h
    exact String.ext hd
  · rintro rfl
    rfl

/-- The map function of the deployment watch yields nothing or the one request that
carries the namespace of its argument. -/
theorem osdMapFunc_cases {ρ τ : Type} (AppAttr AppName : String) (o : client.Object ρ τ) :
    clusterdisruption.osdMapFunc AppAttr AppName o = [] ∨
    clusterdisruption.osdMapFunc AppAttr AppName o =
      [{ NamespacedName := { Namespace := o.GetNamespace, Name := "" } }] := by
  cases o with
  | deployment d =>
    rcases hl : d.ObjectMeta.Labels.lookup AppAttr with _ | a
    · simp [clusterdisruption.osdMapFunc, hl]
    · by_cases ha : a = AppName
      · simp [clusterdisruption.osdMapFunc, hl, ha, client.Object.GetNamespace,
          client.Object.ObjectMeta]
      · simp [clusterdisruption.osdMapFunc, hl, ha]
  | _ => simp [clusterdisruption.osdMapFunc]

/-- C7, as stated, fails: an update event of the deployment stream whose deployment has two
unavailable replicas but is not labelled as an OSD produces no request. -/
theorem C7_counterexample :
    clusterdisruption.watchDeployments "app" "rook-ceph-osd"
      (clusterdisruption.test.deploymentUpdate "rook-ceph-mon-a" "rook-ceph-mon" 0 2) = [] := by
  decide

/-- C7, amended: for every update event of the deployment stream, with `d` the updated
deployment: if `d` has no unavailable replica, no request is produced; if it has one or
more, `d` carries the OSD application label, and the old object is in the namespace of `d`,
exactly one request is produced, with the namespace of `d` and an empty name; if neither
the old nor the updated object maps to a request (as when neither is labelled as an OSD),
none is produced. -/
theorem C7_osd_update_requests {ρ τ : Type} (AppAttr AppName : String)
    (old : client.Object ρ τ) (d : appsv1.Deployment) :
    (d.Status.UnavailableReplicas ≤ 0 →
      clusterdisruption.watchDeployments AppAttr AppName
        (event.Event.update { ObjectOld := old, ObjectNew := client.Object.deployment d })
        = []) ∧
    (0 < d.Status.UnavailableReplicas →
      d.ObjectMeta.Labels.lookup AppAttr = some AppName →
      old.GetNamespace = d.ObjectMeta.Namespace →
      clusterdisruption.watchDeployments AppAttr AppName
        (event.Event.update { ObjectOld := old, ObjectNew := client.Object.deployment d })
        = [{ NamespacedName := { Namespace := d.ObjectMeta.Namespace, Name := "" } }]) ∧
    (d.ObjectMeta.Labels.lookup AppAttr ≠ some AppName →
      clusterdisruption.osdMapFunc AppAttr AppName (client.Object.deployment d : client.Object ρ τ)
        = []) ∧
    (clusterdisruption.osdMapFunc AppAttr AppName old = [] →
      d.ObjectMeta.Labels.lookup AppAttr ≠ some AppName →
      clusterdisruption.watchDeployments AppAttr AppName
        (event.Event.update { ObjectOld := old, ObjectNew := client.Object.deployment d })
        = []) := by
  have hunl : d.ObjectMeta.Labels.lookup AppAttr ≠ some AppName →
      clusterdisruption.osdMapFunc AppAttr AppName
        (client.Object.deployment d : client.Object ρ τ) = [] := by
    intro hl
    rcases hl1 : d.ObjectMeta.Labels.lookup AppAttr with _ | a
    · simp [clusterdisruption.osdMapFunc, hl1]
    · have ha : a ≠ AppName := by
        intro h
        exact hl (by rw [hl1, h])
      simp [clusterdisruption.osdMapFunc, hl1, ha]
  refine ⟨?_, ?_, hunl, ?_⟩
  · intro h
    have h1 : ¬ (d.Status.UnavailableReplicas > 0) := by omega
    simp [clusterdisruption.watchDeployments, handler.Watch, predicate.Funcs.admits,
      predicate.Funcs.Update, clusterdisruption.osdPredicate, client.Object.DeepCopyObject, h1]
  · intro h hl hns
    have hnew : clusterdisruption.osdMapFunc AppAttr AppName
        (client.Object.deployment d : client.Object ρ τ) =
        [{ NamespacedName := { Namespace := d.ObjectMeta.Namespace, Name := "" } }] := by
      simp [clusterdisruption.osdMapFunc, hl]
    have hadm : clusterdisruption.watchDeployments AppAttr AppName
        (event.Event.update { ObjectOld := old, ObjectNew := client.Object.deployment d }) =
        (clusterdisruption.osdMapFunc AppAttr AppName
          (client.Object.deployment d : client.Object ρ τ)).foldl handler.queueAdd
          ((clusterdisruption.osdMapFunc AppAttr AppName old).foldl handler.queueAdd []) := by
      simp [clusterdisruption.watchDeployments, handler.Watch, predicate.Funcs.admits,
        predicate.Funcs.Update, clusterdisruption.osdPredicate,
        client.Object.DeepCopyObject, h, handler.EnqueueRequestsFromMapFunc]
    rw [hadm, hnew]
    rcases osdMapFunc_cases AppAttr AppName old with ho | ho
    · rw [ho]
      simp [handler.queueAdd]
    · rw [ho, hns]
      simp [handler.queueAdd]
  · intro ho hl
    by_cases h : d.Status.UnavailableReplicas > 0
    · simp [clusterdisruption.watchDeployments, handler.Watch, predicate.Funcs.admits,
        predicate.Funcs.Update, clusterdisruption.osdPredicate,
        client.Object.DeepCopyObject, h, handler.EnqueueRequestsFromMapFunc, ho, hunl hl]
    · simp [clusterdisruption.watchDeployments, handler.Watch, predicate.Funcs.admits,
        predicate.Funcs.Update, clusterdisruption.osdPredicate,
        client.Object.DeepCopyObject, h]

/-- C7 (amended) on an OSD deployment of the namespace `rook-ceph`: no request with 0
unavailable replicas, one request for the namespace with 2. -/
theorem C7_osd_update_requests_witness :
    clusterdisruption.watchDeployments "app" "rook-ceph-osd"
      (clusterdisruption.test.deploymentUpdate "rook-ceph-osd-0" "rook-ceph-osd" 2 0) = [] ∧
    clusterdisruption.watchDeployments "app" "rook-ceph-osd"
      (clusterdisruption.test.deploymentUpdate "rook-ceph-osd-0" "rook-ceph-osd" 0 2) =
      [{ NamespacedName := { Namespace := "rook-ceph", Name := "" } }] :=
  ⟨(C7_osd_update_requests "app" "rook-ceph-osd"
      (client.Object.deployment
        (clusterdisruption.test.deployment "rook-ceph-osd-0" "rook-ceph-osd" 2))
      (clusterdisruption.test.deployment "rook-ceph-osd-0" "rook-ceph-osd" 0)).1
      (by decide),
   (C7_osd_update_requests "app" "rook-ceph-osd"
      (client.Object.deployment
        (clusterdisruption.test.deployment "rook-ceph-osd-0" "rook-ceph-osd" 0))
      (clusterdisruption.test.deployment "rook-ceph-osd-0" "rook-ceph-osd" 2)).2.1
      (by decide) (by decide) (by decide)⟩

/-- C8: for every update event of the CephCluster stream whose old and new objects are
CephClusters, `cephClusterPredicate` admits the event, and the watch produces a request,
exactly when the two specs differ; an admitted event of one cluster (old and new object have the same name and namespace)
produces exactly one request, naming that cluster; an event with equal specs, such as one
that changes only the status, produces none. -/
theorem C8_cephCluster_update_iff {ρ τ : Type} [DecidableEq ρ]
    (old new : cephv1.CephCluster ρ τ) (status : τ) :
    (clusterdisruption.cephClusterPredicate.Update
        { ObjectOld := client.Object.cephCluster old
          ObjectNew := client.Object.cephCluster new } = true ↔ old.Spec ≠ new.Spec) ∧
    (clusterdisruption.watchCephClusters (event.Event.update
        { ObjectOld := client.Object.cephCluster old
          ObjectNew := client.Object.cephCluster new }) ≠ [] ↔ old.Spec ≠ new.Spec) ∧
    (old.Spec ≠ new.Spec → old.ObjectMeta.Name = new.ObjectMeta.Name →
      old.ObjectMeta.Namespace = new.ObjectMeta.Namespace →
      clusterdisruption.watchCephClusters (event.Event.update
        { ObjectOld := client.Object.cephCluster old
          ObjectNew := client.Object.cephCluster new }) =
        [{ NamespacedName :=
            { Namespace := new.ObjectMeta.Namespace, Name := new.ObjectMeta.Name } }]) ∧
    (old.Spec = new.Spec →
      clusterdisruption.watchCephClusters (event.Event.update
        { ObjectOld := client.Object.cephCluster old
          ObjectNew := client.Object.cephCluster new }) = []) ∧
    clusterdisruption.watchCephClusters (event.Event.update
      { ObjectOld := client.Object.cephCluster old
        ObjectNew := client.Object.cephCluster { old with Status := status } }) = [] := by
  have hzero : ∀ new' : cephv1.CephCluster ρ τ, old.Spec = new'.Spec →
      clusterdisruption.watchCephClusters (event.Event.update
        { ObjectOld := client.Object.cephCluster old
          ObjectNew := client.Object.cephCluster new' }) = [] := by
    intro new' h
    simp [clusterdisruption.watchCephClusters, handler.Watch, predicate.Funcs.admits,
      predicate.Funcs.Update, clusterdisruption.cephClusterPredicate,
      client.Object.DeepCopyObject, h]
  refine ⟨?_, ?_, ?_, hzero new, hzero _ rfl⟩
  · simp [predicate.Funcs.Update, clusterdisruption.cephClusterPredicate,
      client.Object.DeepCopyObject]
  · by_cases h : old.Spec = new.Spec
    · simp [hzero new h, h]
    · simp [clusterdisruption.watchCephClusters, handler.Watch, predicate.Funcs.admits,
        predicate.Funcs.Update, clusterdisruption.cephClusterPredicate,
        client.Object.DeepCopyObject, h, handler.EnqueueRequestForObject, handler.queueAdd]
      split <;> simp
  · intro h hname hns
    simp [clusterdisruption.watchCephClusters, handler.Watch, predicate.Funcs.admits,
      predicate.Funcs.Update, clusterdisruption.cephClusterPredicate,
      client.Object.DeepCopyObject, h, handler.EnqueueRequestForObject, handler.queueAdd,
      handler.requestFor, client.Object.GetName, client.Object.GetNamespace,
      client.Object.ObjectMeta, hname, hns]

/-- C8 on the cluster `rook-ceph`: raising the mon count from 3 to 5 produces the one
request naming the cluster, an update with the same spec produces none. -/
theorem C8_cephCluster_update_iff_witness :
    clusterdisruption.watchCephClusters (event.Event.update
      { ObjectOld := client.Object.cephCluster (clusterdisruption.test.cluster 3)
        ObjectNew := client.Object.cephCluster (clusterdisruption.test.cluster 5) }) =
      [{ NamespacedName := { Namespace := "rook-ceph", Name := "rook-ceph" } }] ∧
    clusterdisruption.watchCephClusters (event.Event.update
      { ObjectOld := client.Object.cephCluster (clusterdisruption.test.cluster 3)
        ObjectNew := client.Object.cephCluster (clusterdisruption.test.cluster 3) }) = [] :=
  ⟨(C8_cephCluster_update_iff (clusterdisruption.test.cluster 3)
      (clusterdisruption.test.cluster 5) ()).2.2.1 (by decide) rfl rfl,
   (C8_cephCluster_update_iff (clusterdisruption.test.cluster 3)
      (clusterdisruption.test.cluster 3) ()).2.2.2.1 rfl⟩

/-- C9, as stated, fails: the delete event of the cluster `rook-ceph` is admitted by
`cephClusterPredicate` and produces one request. -/
theorem C9_counterexample :
    (clusterdisruption.cephClusterPredicate : predicate.Funcs Unit Unit).admits
      (event.Event.delete
        { Object := client.Object.cephCluster (clusterdisruption.test.cluster 3) }) = true ∧
    clusterdisruption.watchCephClusters (event.Event.delete
      { Object := client.Object.cephCluster (clusterdisruption.test.cluster 3) }) =
      [{ NamespacedName := { Namespace := "rook-ceph", Name := "rook-ceph" } }] := by
  decide

/-- C9, amended: `cephClusterPredicate` sets no `DeleteFunc`, and a predicate with no
`DeleteFunc` admits every delete event; every delete event of the CephCluster stream is
admitted and produces exactly one request, naming the deleted object. -/
theorem C9_cephCluster_delete_admitted {ρ τ : Type} [DecidableEq ρ]
    (e : event.DeleteEvent ρ τ) :
    (clusterdisruption.cephClusterPredicate : predicate.Funcs ρ τ).DeleteFunc.isNone = true ∧
    (clusterdisruption.cephClusterPredicate : predicate.Funcs ρ τ).admits
      (event.Event.delete e) = true ∧
    clusterdisruption.watchCephClusters (event.Event.delete e) =
      [{ NamespacedName :=
          { Namespace := e.Object.GetNamespace, Name := e.Object.GetName } }] := by
  refine ⟨rfl, rfl, ?_⟩
  simp [clusterdisruption.watchCephClusters, handler.Watch, predicate.Funcs.admits,
    predicate.Funcs.Delete, clusterdisruption.cephClusterPredicate,
    handler.EnqueueRequestForObject, handler.queueAdd, handler.requestFor]

/-- C10, as stated, fails: for a CephBlockPool without a namespace the map function of
`enqueueByNamespace` returns no request, and its create event produces none. -/
theorem C10_counterexample :
    clusterdisruption.enqueueByNamespaceMapFunc (clusterdisruption.test.blockPool "") = [] ∧
    clusterdisruption.watchAuxiliary (event.Event.create
      { Object := clusterdisruption.test.blockPool "" }) = [] := by
  decide

/-- C10, amended: for every object `o` with a non-empty namespace the map function of
`enqueueByNamespace` returns exactly one request, with the namespace of `o` and an empty
name, and so do the create and the delete event carrying `o` and the update event from an
object of the same namespace to `o`; for an object with an empty namespace it returns
none; the result depends on the namespace of the object only. -/
theorem C10_enqueueByNamespace_requests {ρ τ : Type} (o old : client.Object ρ τ) :
    (o.GetNamespace ≠ "" →
      clusterdisruption.enqueueByNamespaceMapFunc o =
        [{ NamespacedName := { Namespace := o.GetNamespace, Name := "" } }] ∧
      clusterdisruption.watchAuxiliary (event.Event.create { Object := o }) =
        [{ NamespacedName := { Namespace := o.GetNamespace, Name := "" } }] ∧
      clusterdisruption.watchAuxiliary (event.Event.delete { Object := o }) =
        [{ NamespacedName := { Namespace := o.GetNamespace, Name := "" } }] ∧
      (old.GetNamespace = o.GetNamespace →
        clusterdisruption.watchAuxiliary
          (event.Event.update { ObjectOld := old, ObjectNew := o }) =
          [{ NamespacedName := { Namespace := o.GetNamespace, Name := "" } }])) ∧
    (o.GetNamespace = "" → clusterdisruption.enqueueByNamespaceMapFunc o = []) ∧
    (old.GetNamespace = o.GetNamespace →
      clusterdisruption.enqueueByNamespaceMapFunc old =
        clusterdisruption.enqueueByNamespaceMapFunc o) := by
  refine ⟨?_, ?_, ?_⟩
  · intro hns
    have hlen : o.GetNamespace.length ≠ 0 := fun h =>
      hns ((string_length_eq_zero_iff _).1 h)
    have hmap : clusterdisruption.enqueueByNamespaceMapFunc o =
        [{ NamespacedName := { Namespace := o.GetNamespace, Name := "" } }] := by
      simp [clusterdisruption.enqueueByNamespaceMapFunc, hlen]
    refine ⟨hmap, ?_, ?_, ?_⟩
    · simp [clusterdisruption.watchAuxiliary, handler.Watch,
        clusterdisruption.enqueueByNamespace, handler.EnqueueRequestsFromMapFunc, hmap,
        handler.queueAdd]
    · simp [clusterdisruption.watchAuxiliary, handler.Watch,
        clusterdisruption.enqueueByNamespace, handler.EnqueueRequestsFromMapFunc, hmap,
        handler.queueAdd]
    · intro hold
      have hmapOld : clusterdisruption.enqueueByNamespaceMapFunc old =
          [{ NamespacedName := { Namespace := o.GetNamespace, Name := "" } }] := by
        simp [clusterdisruption.enqueueByNamespaceMapFunc, hold, hlen]
      simp [clusterdisruption.watchAuxiliary, handler.Watch,
        clusterdisruption.enqueueByNamespace, handler.EnqueueRequestsFromMapFunc, hmap,
        hmapOld, handler.queueAdd]
  · intro hns
    simp [clusterdisruption.enqueueByNamespaceMapFunc, hns]
  · intro hold
    simp [clusterdisruption.enqueueByNamespaceMapFunc, hold]

/-- C10 (amended) on the CephBlockPool `replicapool` of the namespace `rook-ceph`. -/
theorem C10_enqueueByNamespace_requests_witness :
    clusterdisruption.enqueueByNamespaceMapFunc (clusterdisruption.test.blockPool "rook-ceph") =
      [{ NamespacedName := { Namespace := "rook-ceph", Name := "" } }] ∧
    clusterdisruption.watchAuxiliary (event.Event.update
      { ObjectOld := clusterdisruption.test.blockPool "rook-ceph"
        ObjectNew := clusterdisruption.test.blockPool "rook-ceph" }) =
      [{ NamespacedName := { Namespace := "rook-ceph", Name := "" } }] :=
  ⟨((C10_enqueueByNamespace_requests (clusterdisruption.test.blockPool "rook-ceph")
      (clusterdisruption.test.blockPool "rook-ceph")).1 (by decide)).1,
   ((C10_enqueueByNamespace_requests (clusterdisruption.test.blockPool "rook-ceph")
      (clusterdisruption.test.blockPool "rook-ceph")).1 (by decide)).2.2.2 rfl⟩

/-- The loop of `GetMonPDB` returns a stored budget with the requested name. -/
theorem getMonPDB_loop_some (name : String) (items : List v1beta1.PodDisruptionBudget)
    (b : v1beta1.PodDisruptionBudget) (h : pdb.GetMonPDB.loop name items = some b) :
    b ∈ items ∧ b.ObjectMeta.Name = name := by
  induction items with
  | nil => simp [pdb.GetMonPDB.loop] at h
  | cons x xs ih =>
    by_cases hx : x.ObjectMeta.Name = name
    · simp [pdb.GetMonPDB.loop, hx] at h
      subst h
      exact ⟨List.mem_cons_self _ _, hx⟩
    · simp [pdb.GetMonPDB.loop, hx] at h
      exact ⟨List.mem_cons_of_mem _ (ih h).1, (ih h).2⟩

/-- The loop of `GetMonPDB` returns nothing exactly when no stored budget has the
requested name. -/
theorem getMonPDB_loop_none (name : String) (items : List v1beta1.PodDisruptionBudget) :
    pdb.GetMonPDB.loop name items = none ↔ ∀ b ∈ items, b.ObjectMeta.Name ≠ name := by
  induction items with
  | nil => simp [pdb.GetMonPDB.loop]
  | cons x xs ih =>
    by_cases hx : x.ObjectMeta.Name = name
    · simp [pdb.GetMonPDB.loop, hx]
    · simp [pdb.GetMonPDB.loop, hx, ih]

/-- C11 fails on the code: the handlers do not return normally on the three inputs the
claim names.  A payload that is not a PodDisruptionBudget is logged and then still passed,
as a nil pointer, to `ValidateMinAvailableMonCount`, which panics; a `mon-pdb` budget
observed while `GetClusterObj` returns nil panics; a `mon-pdb` budget with no minAvailable
observed while the cluster has 3 mons panics. -/
theorem C11_handlers_panic {ρ τ : Type} (p : pdb.PdbController ρ τ) (old : pdb.Payload)
    (description : String) :
    pdb.onAdd p (pdb.Payload.other description) =
      ([pdb.LogEvent.eventReceived, pdb.LogEvent.warnUnexpectedType],
        .error Fault.nilPointerDereference) ∧
    pdb.onUpdate p old (pdb.Payload.other description) =
      ([pdb.LogEvent.eventReceived, pdb.LogEvent.warnUnexpectedType],
        .error Fault.nilPointerDereference) ∧
    pdb.GetClusterObj (pdb.test.controller none []) = ((none, none), []) ∧
    pdb.onAdd (pdb.test.controller none [])
        (pdb.Payload.podDisruptionBudget (pdb.test.createMonPDB 2 "mon-pdb")) =
      ([pdb.LogEvent.eventReceived], .error Fault.nilPointerDereference) ∧
    pdb.onUpdate (pdb.test.controller none []) old
        (pdb.Payload.podDisruptionBudget (pdb.test.createMonPDB 2 "mon-pdb")) =
      ([pdb.LogEvent.eventReceived], .error Fault.nilPointerDereference) ∧
    pdb.onAdd (pdb.test.controller (some (pdb.test.createCluster 3)) [])
        (pdb.Payload.podDisruptionBudget (pdb.test.budgetWithoutMinAvailable "mon-pdb")) =
      ([pdb.LogEvent.eventReceived], .error Fault.nilPointerDereference) ∧
    pdb.onUpdate (pdb.test.controller (some (pdb.test.createCluster 3)) []) old
        (pdb.Payload.podDisruptionBudget (pdb.test.budgetWithoutMinAvailable "mon-pdb")) =
      ([pdb.LogEvent.eventReceived], .error Fault.nilPointerDereference) :=
  ⟨rfl, rfl, rfl, rfl, rfl, rfl, rfl⟩

/-- C12: when the list call answers with the budgets stored in the namespace (with no
error, or a "not found" error), `GetMonPDB namespace name` returns with a nil error a
stored budget whose name is the requested name if there is one, and `(nil, nil)` if there
is none; in both cases the returned error is nil. -/
theorem C12_getMonPDB_found_or_nil {ρ τ : Type} (p : pdb.PdbController ρ τ)
    (ns name : String) (items : List v1beta1.PodDisruptionBudget)
    (err : Option apierrors.APIError)
    (hlist : p.context.listPodDisruptionBudgets ns = (some items, err))
    (herr : ∀ e, err = some e → apierrors.IsNotFound e = true) :
    ((∃ b ∈ items, b.ObjectMeta.Name = name) →
      ∃ b, b ∈ items ∧ b.ObjectMeta.Name = name ∧
        pdb.GetMonPDB p ns name = .ok ((some b, none), [pdb.LogEvent.infoMonPDBFound])) ∧
    ((∀ b ∈ items, b.ObjectMeta.Name ≠ name) →
      pdb.GetMonPDB p ns name = .ok ((none, none), [pdb.LogEvent.infoNotCreated])) ∧
    (∃ r log, pdb.GetMonPDB p ns name = .ok ((r, none), log)) := by
  have hrun : pdb.GetMonPDB p ns name =
      match pdb.GetMonPDB.loop name items with
      | some b => .ok ((some b, none), [pdb.LogEvent.infoMonPDBFound])
      | none => .ok ((none, none), [pdb.LogEvent.infoNotCreated]) := by
    rcases err with _ | e
    · simp [pdb.GetMonPDB, hlist]
    · simp [pdb.GetMonPDB, hlist, herr e rfl]
  refine ⟨?_, ?_, ?_⟩
  · rintro ⟨b0, hb0, hname0⟩
    rcases hl : pdb.GetMonPDB.loop name items with _ | b
    · exact absurd hname0 ((getMonPDB_loop_none name items).1 hl b0 hb0)
    · refine ⟨b, (getMonPDB_loop_some name items b hl).1,
        (getMonPDB_loop_some name items b hl).2, ?_⟩
      rw [hrun, hl]
  · intro hnone
    rw [hrun, (getMonPDB_loop_none name items).2 hnone]
  · rcases hl : pdb.GetMonPDB.loop name items with _ | b
    · exact ⟨none, _, by rw [hrun, hl]⟩
    · exact ⟨some b, _, by rw [hrun, hl]⟩

/-- C12 on the two cases of `pdb_test.go`: with the budget `mon-pdb` stored it is returned,
with no budget stored the result is `(nil, nil)`. -/
theorem C12_getMonPDB_found_or_nil_witness :
    (∃ b, b ∈ [pdb.test.createMonPDB 4 "mon-pdb"] ∧ b.ObjectMeta.Name = "mon-pdb" ∧
      pdb.GetMonPDB (pdb.test.controller none [pdb.test.createMonPDB 4 "mon-pdb"])
        "rook-ceph" "mon-pdb" = .ok ((some b, none), [pdb.LogEvent.infoMonPDBFound])) ∧
    pdb.GetMonPDB (pdb.test.controller none []) "rook-ceph" "mon-pdb" =
      .ok ((none, none), [pdb.LogEvent.infoNotCreated]) :=
  ⟨(C12_getMonPDB_found_or_nil
      (pdb.test.controller none [pdb.test.createMonPDB 4 "mon-pdb"]) "rook-ceph" "mon-pdb"
      [pdb.test.createMonPDB 4 "mon-pdb"] none rfl (by simp)).1
      ⟨pdb.test.createMonPDB 4 "mon-pdb", by simp, rfl⟩,
   (C12_getMonPDB_found_or_nil (pdb.test.controller none []) "rook-ceph" "mon-pdb"
      [] none rfl (by simp)).2.1 (by simp)⟩
